import Mathlib

/-!
# Verification of the CupidShirin choice-game core

Shallow embedding of the session/context-management and retry core of the
repository (files `soul_explorer_bot.py`, `soul_explorer_bot_optimized.py`,
`main_soul_explorer_optimized.py`), together with proofs of the spec's
testable properties.

Modelling conventions:
* Python strings are modelled as `List Char` (`PyStr`); Python `len`,
  slicing, `strip`, `split`, `startswith`, `upper`/`lower` become list
  operations with the same code-point semantics (`strip` is modelled on the
  ASCII whitespace set).
* Float delays of the backoff executor are modelled as rationals; the
  doubling-and-clamping arithmetic is exact in both.
* The wall-clock `timestamp` recorded in each history entry is omitted: no
  claim and no control flow reads it.
* The generative-model call (`model.generate_content`) is an external
  capability; each call site takes its outcome as an explicit
  `GenOutcome`/oracle argument (success text, or failure after the retry
  budget is exhausted).  `random.choice` over a fixed pool is modelled by an
  injected natural number reduced modulo the pool size.
-/

/-- Python strings, modelled as their sequence of code points. -/
abbrev PyStr := List Char

/-- The single-quote character (written numerically). -/
def squote : Char := Char.ofNat 39

/-- Characters removed by Python `str.strip()` (ASCII whitespace set). -/
def isPySpace (c : Char) : Bool :=
  c = ' ' || c = '\t' || c = '\n' || c = '\r' || c = Char.ofNat 11 || c = Char.ofNat 12

/-- Python `s.strip()`: drop whitespace from both ends. -/
def pyStrip (s : PyStr) : PyStr :=
  ((s.dropWhile isPySpace).reverse.dropWhile isPySpace).reverse

/-- Python `s.lower()` (ASCII case mapping). -/
def pyLower (s : PyStr) : PyStr := s.map Char.toLower

/-- Python `s.upper()` (ASCII case mapping). -/
def pyUpper (s : PyStr) : PyStr := s.map Char.toUpper

/-- Python `s[:n]` for `n ≥ 0`. -/
def pyTake (n : ℕ) (s : PyStr) : PyStr := s.take n

/-- Python `l[-n:]`: for `n = 0` this is the whole list (Python `-0` is `0`),
otherwise the last `n` elements. -/
def pySliceLast (n : ℕ) (l : List α) : List α :=
  if n = 0 then l else l.drop (l.length - n)

/-- The last `n` elements of a list (`l[-n:]` for a positive literal `n`). -/
def takeLast (n : ℕ) (l : List α) : List α := l.drop (l.length - n)

/-- Python `sep.join(parts)`. -/
def pyJoin (sep : PyStr) : List PyStr → PyStr
  | [] => []
  | [p] => p
  | p :: q :: ps => p ++ sep ++ pyJoin sep (q :: ps)

/-! ## Backoff executor (`ExponentialBackoffRetry`, soul_explorer_bot_optimized.py 18-67) -/

/-- Configuration of `ExponentialBackoffRetry.__init__`.  The float delays
are modelled as rationals (the doubling/min arithmetic is exact). -/
structure RetryConfig where
  base_delay : ℚ
  max_delay : ℚ
  max_retries : ℕ

/-- The delay computed before the retry following (0-based) attempt
`attempt`: `min(self.base_delay * (2 ** attempt), self.max_delay)`. -/
def backoffDelay (cfg : RetryConfig) (attempt : ℕ) : ℚ :=
  min (cfg.base_delay * 2 ^ attempt) cfg.max_delay

/-- Observable outcome of one `execute` call: the returned value or raised
exception, the number of invocations of the wrapped operation, and the
sequence of sleeps performed (in order). -/
structure ExecTrace (E α : Type) where
  result : Except E α
  invocations : ℕ
  delays : List ℚ

/-- The loop body of `ExponentialBackoffRetry.execute`, at 0-based attempt
index `attempt` with `remaining` further attempts allowed after this one
(`remaining = max_retries - attempt`).  `f i` is the outcome of the `i`-th
invocation of the wrapped operation. -/
def executeAux (cfg : RetryConfig) (f : ℕ → Except E α) :
    (attempt remaining : ℕ) → ExecTrace E α
  | attempt, 0 =>
    match f attempt with
    | .ok v => ⟨.ok v, 1, []⟩
    | .error e => ⟨.error e, 1, []⟩
  | attempt, remaining + 1 =>
    match f attempt with
    | .ok v => ⟨.ok v, 1, []⟩
    | .error _ =>
      let rest := executeAux cfg f (attempt + 1) remaining
      ⟨rest.result, rest.invocations + 1, backoffDelay cfg attempt :: rest.delays⟩

/-- `ExponentialBackoffRetry.execute`: run `f` up to `max_retries + 1`
times, sleeping `backoffDelay` between failed attempts, re-raising the last
exception when the final attempt fails. -/
def execute (cfg : RetryConfig) (f : ℕ → Except E α) : ExecTrace E α :=
  executeAux cfg f 0 cfg.max_retries

lemma executeAux_all_fail (cfg : RetryConfig) (f : ℕ → Except E α) (errs : ℕ → E)
    (hf : ∀ i, f i = .error (errs i)) :
    ∀ remaining attempt, executeAux cfg f attempt remaining =
      ⟨.error (errs (attempt + remaining)), remaining + 1,
        (List.range remaining).map (fun j => backoffDelay cfg (attempt + j))⟩ := by
  intro remaining
  induction remaining with
  | zero =>
    intro attempt
    simp [executeAux, hf attempt]
  | succ n ih =>
    intro attempt
    have h := hf attempt
    have harr : attempt + (n + 1) = attempt + 1 + n := by omega
    have hlist : (List.range (n + 1)).map (fun j => backoffDelay cfg (attempt + j)) =
        backoffDelay cfg attempt ::
          (List.range n).map (fun j => backoffDelay cfg (attempt + 1 + j)) := by
      rw [List.range_succ_eq_map, List.map_cons, List.map_map]
      simp only [List.cons.injEq]
      refine ⟨by simp, ?_⟩
      apply List.map_congr_left
      intro j _
      simp only [Function.comp_apply, Nat.succ_eq_add_one]
      rw [show attempt + (j + 1) = attempt + 1 + j from by omega]
    simp only [executeAux, h, ih (attempt + 1)]
    rw [harr, hlist]

lemma executeAux_succeeds (cfg : RetryConfig) (f : ℕ → Except E α) (k : ℕ) (v : α)
    (hfail : ∀ i < k, ∃ e, f i = .error e) (hok : f k = .ok v) :
    ∀ remaining attempt, attempt ≤ k → k ≤ attempt + remaining →
      executeAux cfg f attempt remaining =
        ⟨.ok v, k - attempt + 1,
          (List.range (k - attempt)).map (fun j => backoffDelay cfg (attempt + j))⟩ := by
  intro remaining
  induction remaining with
  | zero =>
    intro attempt h1 h2
    have : attempt = k := by omega
    subst this
    simp [executeAux, hok]
  | succ n ih =>
    intro attempt h1 h2
    by_cases hak : attempt = k
    · subst hak
      simp [executeAux, hok]
    · obtain ⟨e, he⟩ := hfail attempt (by omega)
      have hk : k - attempt = (k - (attempt + 1)) + 1 := by omega
      have hinv : k - (attempt + 1) + 1 + 1 = k - attempt + 1 := by omega
      have hlist : (List.range (k - attempt)).map (fun j => backoffDelay cfg (attempt + j)) =
          backoffDelay cfg attempt ::
            (List.range (k - (attempt + 1))).map
              (fun j => backoffDelay cfg (attempt + 1 + j)) := by
        rw [hk, List.range_succ_eq_map, List.map_cons, List.map_map]
        simp only [List.cons.injEq]
        refine ⟨by simp, ?_⟩
        apply List.map_congr_left
        intro j _
        simp only [Function.comp_apply, Nat.succ_eq_add_one]
        rw [show attempt + (j + 1) = attempt + 1 + j from by omega]
      simp only [executeAux, he]
      rw [ih (attempt + 1) (by omega) (by omega), hlist]
      simp only [ExecTrace.mk.injEq, true_and, and_true]
      omega

/-- C1: when every invocation of the wrapped operation fails, `execute`
invokes it exactly `max_retries + 1` times and then raises the exception of
the last attempt unchanged (no default value is substituted). -/
theorem execute_always_failing_raises_last (cfg : RetryConfig) {E α : Type}
    (f : ℕ → Except E α) (errs : ℕ → E) (hf : ∀ i, f i = .error (errs i)) :
    (execute cfg f).result = .error (errs cfg.max_retries) ∧
      (execute cfg f).invocations = cfg.max_retries + 1 := by
  unfold execute
  rw [executeAux_all_fail cfg f errs hf cfg.max_retries 0]
  exact ⟨by simp, rfl⟩

/-- Witness for C1 at `base_delay = 1`, `max_delay = 60`, `max_retries = 3`,
with the operation failing with exception `i` on its `i`-th invocation. -/
theorem execute_always_failing_raises_last_witness :
    (∀ i : ℕ, (fun i : ℕ => (Except.error i : Except ℕ ℕ)) i = .error i) ∧
      (execute ⟨1, 60, 3⟩ (fun i => (Except.error i : Except ℕ ℕ))).result = .error 3 ∧
      (execute ⟨1, 60, 3⟩ (fun i => (Except.error i : Except ℕ ℕ))).invocations = 3 + 1 :=
  ⟨fun _ => rfl,
    execute_always_failing_raises_last ⟨1, 60, 3⟩ (fun i => Except.error i) id fun _ => rfl⟩

/-- C2: when the operation fails on exactly its first `k` invocations with
`k < max_retries` and succeeds on invocation `k + 1`, `execute` returns the
success value, invokes the operation exactly `k + 1` times, and the delay
slept before retry attempt `i` (1-based, `i = j + 1` below) is
`min (base_delay * 2 ^ (i - 1)) max_delay`. -/
theorem execute_eventual_success (cfg : RetryConfig) {E α : Type}
    (f : ℕ → Except E α) (k : ℕ) (v : α) (hk : k < cfg.max_retries)
    (hfail : ∀ i < k, ∃ e, f i = .error e) (hok : f k = .ok v) :
    (execute cfg f).result = .ok v ∧ (execute cfg f).invocations = k + 1 ∧
      (execute cfg f).delays =
        (List.range k).map (fun j => min (cfg.base_delay * 2 ^ j) cfg.max_delay) := by
  unfold execute
  rw [executeAux_succeeds cfg f k v hfail hok cfg.max_retries 0 (by omega) (by omega)]
  refine ⟨rfl, by simp, ?_⟩
  simp [backoffDelay]

/-- Witness for C2: `k = 2` failures then success with value `7`, under
`base_delay = 1`, `max_delay = 60`, `max_retries = 5`; the two recorded
delays are `min (1 * 2 ^ 0) 60` and `min (1 * 2 ^ 1) 60`. -/
theorem execute_eventual_success_witness :
    (2 < 5 ∧ (∀ i < 2, ∃ e : ℕ, (if i < 2 then Except.error 0 else Except.ok 7) = .error e) ∧
        (if 2 < 2 then Except.error 0 else Except.ok 7) = .ok 7) ∧
      ((execute ⟨1, 60, 5⟩ fun i => if i < 2 then Except.error 0 else Except.ok 7).result
          = .ok 7 ∧
        (execute ⟨1, 60, 5⟩ fun i => if i < 2 then Except.error 0 else Except.ok 7).invocations
          = 2 + 1 ∧
        (execute ⟨1, 60, 5⟩ fun i => if i < 2 then Except.error 0 else Except.ok 7).delays
          = (List.range 2).map fun j => min ((1 : ℚ) * 2 ^ j) 60) :=
  ⟨⟨by norm_num, fun i hi => ⟨0, by simp [hi]⟩, by norm_num⟩,
    execute_eventual_success ⟨1, 60, 5⟩ _ 2 7 (by norm_num)
      (fun i hi => ⟨0, by simp [hi]⟩) (by norm_num)⟩

/-! ## History manager (`ConversationHistoryManager`, soul_explorer_bot_optimized.py 69-153) -/

/-- One element of `story_history` (the wall-clock timestamp is omitted). -/
structure StoryEntry where
  chapter : ℕ
  text : PyStr
deriving DecidableEq

/-- One element of `interaction_history` (timestamp omitted). -/
structure InteractionEntry where
  user_choice : PyStr
  choice_text : PyStr
  ai_response : PyStr
deriving DecidableEq

/-- The mutable state of a `ConversationHistoryManager`. -/
structure HistoryState where
  max_history_length : ℕ
  max_summary_length : ℕ
  story_history : List StoryEntry
  interaction_history : List InteractionEntry
  summary : PyStr
deriving DecidableEq

/-- `ConversationHistoryManager.__init__`. -/
def initHistoryState (max_history_length max_summary_length : ℕ) : HistoryState :=
  ⟨max_history_length, max_summary_length, [], [], []⟩

/-- The per-list trimming step of `_trim_history`: keep only the most
recent `n` elements when the list has grown beyond `n`. -/
def trimList (n : ℕ) (l : List α) : List α :=
  if l.length > n then pySliceLast n l else l

/-- `ConversationHistoryManager._trim_history`. -/
def trim_history (s : HistoryState) : HistoryState :=
  { s with
    story_history := trimList s.max_history_length s.story_history
    interaction_history := trimList s.max_history_length s.interaction_history }

/-- `ConversationHistoryManager.add_story_entry`. -/
def add_story_entry (s : HistoryState) (chapter : ℕ) (story_text : PyStr) : HistoryState :=
  trim_history { s with story_history := s.story_history ++ [⟨chapter, story_text⟩] }

/-- `ConversationHistoryManager.add_interaction_entry`. -/
def add_interaction_entry (s : HistoryState)
    (user_choice choice_text ai_response : PyStr) : HistoryState :=
  trim_history
    { s with
      interaction_history :=
        s.interaction_history ++ [⟨user_choice, choice_text, ai_response⟩] }

/-- `ConversationHistoryManager.update_summary`: store the new summary
truncated to `max_summary_length` characters. -/
def update_summary (s : HistoryState) (new_summary : PyStr) : HistoryState :=
  { s with summary := pyTake s.max_summary_length new_summary }

/-- `ConversationHistoryManager.clear_history`. -/
def clear_history (s : HistoryState) : HistoryState :=
  { s with story_history := [], interaction_history := [], summary := [] }

/-- One mutation of the history ledger, as exercised by claim C3. -/
inductive HistOp where
  | story (chapter : ℕ) (text : PyStr)
  | interaction (user_choice choice_text ai_response : PyStr)

/-- Apply one ledger mutation. -/
def applyHistOp (s : HistoryState) (op : HistOp) : HistoryState :=
  match op with
  | .story c t => add_story_entry s c t
  | .interaction a b r => add_interaction_entry s a b r

/-- The story entries inserted by a sequence of mutations, in order. -/
def storyEntriesOf (ops : List HistOp) : List StoryEntry :=
  ops.filterMap fun op =>
    match op with
    | .story c t => some ⟨c, t⟩
    | .interaction _ _ _ => none

/-- The interaction entries inserted by a sequence of mutations, in order. -/
def interactionEntriesOf (ops : List HistOp) : List InteractionEntry :=
  ops.filterMap fun op =>
    match op with
    | .story _ _ => none
    | .interaction a b r => some ⟨a, b, r⟩

lemma takeLast_length (n : ℕ) (l : List α) : (takeLast n l).length = min n l.length := by
  simp [takeLast]
  omega

lemma takeLast_length_le (n : ℕ) (l : List α) : (takeLast n l).length ≤ n := by
  rw [takeLast_length]
  omega

lemma takeLast_all (n : ℕ) (l : List α) (h : l.length ≤ n) : takeLast n l = l := by
  unfold takeLast
  rw [show l.length - n = 0 from by omega]
  simp

/-- The last `n` of `A ++ [e]` when `A` already has at least `n` elements. -/
lemma takeLast_append_one (n : ℕ) (hn : 0 < n) (A : List α) (e : α) (h : n ≤ A.length) :
    takeLast n (A ++ [e]) = A.drop (A.length + 1 - n) ++ [e] := by
  unfold takeLast
  rw [List.drop_append_eq_append_drop]
  have h2 : (A ++ [e]).length - n = A.length + 1 - n := by simp
  rw [h2, show A.length + 1 - n - A.length = 0 from by omega]
  simp

/-- Trimming after appending one element to an already-trimmed list gives
the last `n` elements of the untrimmed appended list. -/
lemma trimList_takeLast_append (n : ℕ) (hn : 0 < n) (A : List α) (e : α) :
    trimList n (takeLast n A ++ [e]) = takeLast n (A ++ [e]) := by
  have hAe : (A ++ [e]).length = A.length + 1 := by simp
  by_cases hA : A.length < n
  · have hle : (A ++ [e]).length ≤ n := by omega
    rw [takeLast_all n A (by omega), takeLast_all n (A ++ [e]) hle]
    unfold trimList
    rw [if_neg (by omega)]
  · have hlen : (takeLast n A).length = n := by rw [takeLast_length]; omega
    have htot : (takeLast n A ++ [e]).length = n + 1 := by simp [hlen]
    have h1 : ((takeLast n A ++ [e]).length - n) = 1 := by omega
    unfold trimList
    rw [if_pos (by omega)]
    unfold pySliceLast
    rw [if_neg (by omega)]
    rw [h1, takeLast_append_one n hn A e (by omega), List.drop_append_eq_append_drop]
    rw [show 1 - (takeLast n A).length = 0 from by omega]
    simp only [List.drop_zero]
    congr 1
    unfold takeLast
    rw [List.drop_drop]
    congr 1
    omega

lemma trimList_noop (n : ℕ) (l : List α) (h : l.length ≤ n) : trimList n l = l := by
  unfold trimList
  rw [if_neg (by omega)]

/-- Core invariant for C3: folding any mutation sequence over a state whose
lists are the last-5 suffixes of `A` and `B` yields the last-5 suffixes of
the extended insertion sequences. -/
lemma foldl_applyHistOp (ops : List HistOp) :
    ∀ (A : List StoryEntry) (B : List InteractionEntry) (m : PyStr) (msum : ℕ),
      ops.foldl applyHistOp ⟨5, msum, takeLast 5 A, takeLast 5 B, m⟩ =
        ⟨5, msum, takeLast 5 (A ++ storyEntriesOf ops),
          takeLast 5 (B ++ interactionEntriesOf ops), m⟩ := by
  induction ops with
  | nil => intro A B m msum; simp [storyEntriesOf, interactionEntriesOf]
  | cons op ops ih =>
    intro A B m msum
    cases op with
    | story c t =>
      have e1 : trimList 5 (takeLast 5 A ++ [StoryEntry.mk c t]) =
          takeLast 5 (A ++ [StoryEntry.mk c t]) :=
        trimList_takeLast_append 5 (by omega) A (StoryEntry.mk c t)
      have e2 : trimList 5 (takeLast 5 B) = takeLast 5 B :=
        trimList_noop 5 _ (takeLast_length_le 5 B)
      have step : applyHistOp ⟨5, msum, takeLast 5 A, takeLast 5 B, m⟩ (.story c t) =
          ⟨5, msum, takeLast 5 (A ++ [StoryEntry.mk c t]), takeLast 5 B, m⟩ := by
        simp only [applyHistOp, add_story_entry, trim_history, e1, e2]
      rw [List.foldl_cons, step, ih (A ++ [StoryEntry.mk c t]) B m msum]
      simp [storyEntriesOf, interactionEntriesOf]
    | interaction a b r =>
      have e1 : trimList 5 (takeLast 5 A) = takeLast 5 A :=
        trimList_noop 5 _ (takeLast_length_le 5 A)
      have e2 : trimList 5 (takeLast 5 B ++ [InteractionEntry.mk a b r]) =
          takeLast 5 (B ++ [InteractionEntry.mk a b r]) :=
        trimList_takeLast_append 5 (by omega) B (InteractionEntry.mk a b r)
      have step : applyHistOp ⟨5, msum, takeLast 5 A, takeLast 5 B, m⟩ (.interaction a b r) =
          ⟨5, msum, takeLast 5 A, takeLast 5 (B ++ [InteractionEntry.mk a b r]), m⟩ := by
        simp only [applyHistOp, add_interaction_entry, trim_history, e1, e2]
      rw [List.foldl_cons, step, ih A (B ++ [InteractionEntry.mk a b r]) m msum]
      simp [storyEntriesOf, interactionEntriesOf]

/-- C3: after any sequence of `add_story_entry`/`add_interaction_entry`
calls on a fresh manager with `max_history_length = 5`, both lists have
length at most 5 and hold exactly the most recently inserted entries, in
insertion order (oldest evicted first). -/
theorem history_bounded_fifo (ops : List HistOp) :
    (ops.foldl applyHistOp (initHistoryState 5 200)).story_history =
        takeLast 5 (storyEntriesOf ops) ∧
      (ops.foldl applyHistOp (initHistoryState 5 200)).interaction_history =
        takeLast 5 (interactionEntriesOf ops) ∧
      (ops.foldl applyHistOp (initHistoryState 5 200)).story_history.length ≤ 5 ∧
      (ops.foldl applyHistOp (initHistoryState 5 200)).interaction_history.length ≤ 5 := by
  have h : initHistoryState 5 200 =
      (⟨5, 200, takeLast 5 [], takeLast 5 [], []⟩ : HistoryState) := by
    simp [initHistoryState, takeLast]
  rw [h, foldl_applyHistOp ops [] [] [] 200]
  refine ⟨by simp, by simp, ?_, ?_⟩ <;> exact takeLast_length_le 5 _

/-- Rendering of one recent story entry inside `get_optimized_context`:
`f"第{entry['chapter']}章: {story_text}"` with the text truncated to 100
characters plus an ellipsis marker when longer. -/
def renderStoryEntry (e : StoryEntry) : PyStr :=
  "第".data ++ (Nat.repr e.chapter).data ++ "章: ".data ++
    (if e.text.length > 100 then pyTake 100 e.text ++ "...".data else e.text)

/-- Rendering of one recent interaction entry inside
`get_optimized_context`: `f"选择{entry['user_choice']}: {entry['choice_text'][:50]}..."`. -/
def renderInteractionEntry (e : InteractionEntry) : PyStr :=
  "选择".data ++ e.user_choice ++ ": ".data ++ pyTake 50 e.choice_text ++ "...".data

/-- The sentinel returned when no context exists ("story has not started"). -/
def storyStartSentinel : PyStr := "故事开始".data

/-- The `" | "` separator used throughout `get_optimized_context`. -/
def ctxSep : PyStr := " | ".data

/-- The `context_parts` list built by
`ConversationHistoryManager.get_optimized_context`: summary part if the
summary is set, then the last 3 story entries, then the last 2 interaction
entries, each rendered and labeled. -/
def contextParts (s : HistoryState) : List PyStr :=
  (if s.summary ≠ [] then ["故事摘要: ".data ++ s.summary] else []) ++
    (if takeLast 3 s.story_history ≠ [] then
      ["最近故事: ".data ++
        pyJoin ctxSep ((takeLast 3 s.story_history).map renderStoryEntry)]
    else []) ++
    (if takeLast 2 s.interaction_history ≠ [] then
      ["最近选择: ".data ++
        pyJoin ctxSep ((takeLast 2 s.interaction_history).map renderInteractionEntry)]
    else [])

/-- `ConversationHistoryManager.get_optimized_context`:
`" | ".join(context_parts) if context_parts else "故事开始"`.
A pure total function of the state (no mutation, cannot throw). -/
def get_optimized_context (s : HistoryState) : PyStr :=
  if contextParts s ≠ [] then pyJoin ctxSep (contextParts s) else storyStartSentinel

lemma takeLast_eq_nil_iff (n : ℕ) (hn : 0 < n) (l : List α) :
    takeLast n l = [] ↔ l = [] := by
  unfold takeLast
  rw [List.drop_eq_nil_iff, ← List.length_eq_zero]
  omega

lemma contextParts_eq_nil_iff (s : HistoryState) :
    contextParts s = [] ↔
      s.story_history = [] ∧ s.interaction_history = [] ∧ s.summary = [] := by
  unfold contextParts
  split_ifs with h1 h2 h3 <;>
    simp_all [takeLast_eq_nil_iff 3 (by omega : (0 : ℕ) < 3),
      takeLast_eq_nil_iff 2 (by omega : (0 : ℕ) < 2)]

lemma mem_if_singleton {c : Prop} [Decidable c] (x p : PyStr)
    (h : p ∈ (if c then [x] else [])) : p = x := by
  split at h
  · simpa using h
  · simp at h

lemma contextParts_head_len (s : HistoryState) (p : PyStr) (hp : p ∈ contextParts s) :
    6 ≤ p.length := by
  unfold contextParts at hp
  rcases List.mem_append.mp hp with hp' | hm
  · rcases List.mem_append.mp hp' with hm | hm
    · rw [mem_if_singleton _ p hm]; simp
    · rw [mem_if_singleton _ p hm]; simp
  · rw [mem_if_singleton _ p hm]; simp

lemma contextParts_length_le (s : HistoryState) : (contextParts s).length ≤ 3 := by
  unfold contextParts
  split <;> split <;> split <;> simp

lemma pyJoin_ge_head (sep : PyStr) (p : PyStr) (ps : List PyStr) :
    p.length ≤ (pyJoin sep (p :: ps)).length := by
  cases ps with
  | nil => simp [pyJoin]
  | cons q qs => simp [pyJoin]

lemma pyJoin_length_le (sep : PyStr) (parts : List PyStr) :
    (pyJoin sep parts).length ≤ (parts.map List.length).sum + sep.length * parts.length := by
  induction parts with
  | nil => simp [pyJoin]
  | cons p ps ih =>
    cases ps with
    | nil => simp [pyJoin]
    | cons q qs =>
      simp only [pyJoin, List.length_append, List.map_cons, List.sum_cons, List.length_cons]
      have := ih
      simp only [List.map_cons, List.sum_cons, List.length_cons] at this
      calc p.length + sep.length + (pyJoin sep (q :: qs)).length
          ≤ p.length + sep.length +
            (q.length + (qs.map List.length).sum + sep.length * (qs.length + 1)) := by omega
        _ ≤ p.length + (q.length + (qs.map List.length).sum) +
            sep.length * (qs.length + 1 + 1) := by ring_nf; omega

lemma pyJoin_length_of_bound (sep : PyStr) (parts : List PyStr) (a : ℕ)
    (h : ∀ p ∈ parts, p.length ≤ a) :
    (pyJoin sep parts).length ≤ (a + sep.length) * parts.length := by
  have hsum : (parts.map List.length).sum ≤ a * parts.length := by
    induction parts with
    | nil => simp
    | cons p ps ih =>
      simp only [List.map_cons, List.sum_cons, List.length_cons]
      have h1 := h p (by simp)
      have h2 : (ps.map List.length).sum ≤ a * ps.length :=
        ih (fun q hq => h q (by simp [hq]))
      calc p.length + (ps.map List.length).sum ≤ a + a * ps.length := by omega
        _ = a * (ps.length + 1) := by ring
  calc (pyJoin sep parts).length ≤ (parts.map List.length).sum + sep.length * parts.length :=
        pyJoin_length_le sep parts
    _ ≤ a * parts.length + sep.length * parts.length := by omega
    _ = (a + sep.length) * parts.length := by ring

lemma renderStoryEntry_length (e : StoryEntry) (h : (Nat.repr e.chapter).length ≤ 2) :
    (renderStoryEntry e).length ≤ 109 := by
  have hrepr : (Nat.repr e.chapter).data.length ≤ 2 := h
  unfold renderStoryEntry
  split <;>
    simp only [List.length_append, pyTake, List.length_take, List.length_cons,
      List.length_nil] <;> omega

lemma renderInteractionEntry_length (e : InteractionEntry) (h : e.user_choice.length ≤ 1) :
    (renderInteractionEntry e).length ≤ 58 := by
  unfold renderInteractionEntry
  simp only [List.length_append, pyTake, List.length_take, List.length_cons, List.length_nil]
  omega

lemma takeLast_sublist (n : ℕ) (l : List α) : (takeLast n l).Sublist l :=
  List.drop_sublist _ l

lemma contextParts_each_le (s : HistoryState)
    (hsum : s.summary.length ≤ 200)
    (hch : ∀ e ∈ s.story_history, (Nat.repr e.chapter).length ≤ 2)
    (huc : ∀ e ∈ s.interaction_history, e.user_choice.length ≤ 1) :
    ∀ p ∈ contextParts s, p.length ≤ 342 := by
  have hjoinS : (pyJoin ctxSep
      ((takeLast 3 s.story_history).map renderStoryEntry)).length ≤ (109 + 3) * 3 := by
    apply le_trans (pyJoin_length_of_bound _ _ 109 ?_)
    · apply Nat.mul_le_mul (le_refl _)
      simp only [List.length_map]
      exact takeLast_length_le 3 _
    · intro q hq
      simp only [List.mem_map] at hq
      obtain ⟨e, he, rfl⟩ := hq
      exact renderStoryEntry_length e (hch e ((takeLast_sublist 3 s.story_history).mem he))
  have hjoinI : (pyJoin ctxSep
      ((takeLast 2 s.interaction_history).map renderInteractionEntry)).length ≤
      (58 + 3) * 2 := by
    apply le_trans (pyJoin_length_of_bound _ _ 58 ?_)
    · apply Nat.mul_le_mul (le_refl _)
      simp only [List.length_map]
      exact takeLast_length_le 2 _
    · intro q hq
      simp only [List.mem_map] at hq
      obtain ⟨e, he, rfl⟩ := hq
      exact renderInteractionEntry_length e
        (huc e ((takeLast_sublist 2 s.interaction_history).mem he))
  intro p hp
  unfold contextParts at hp
  rcases List.mem_append.mp hp with hp' | hm3
  · rcases List.mem_append.mp hp' with hm1 | hm2
    · rw [mem_if_singleton _ p hm1]
      simp only [List.length_append, List.length_cons, List.length_nil]
      omega
    · rw [mem_if_singleton _ p hm2]
      simp only [List.length_append, List.length_cons, List.length_nil]
      omega
  · rw [mem_if_singleton _ p hm3]
    simp only [List.length_append, List.length_cons, List.length_nil]
    omega

/-- C4: `get_optimized_context` is the sentinel exactly when the ledger is
completely empty, and its length is bounded by the constant 1100 — depending
only on the last 3 story entries and last 2 interaction entries, however
many entries were ever added — provided the summary respects the 200-char
bound `update_summary` enforces, numerals of retained chapter numbers have
at most 2 digits, and retained choice tokens are single letters. -/
theorem get_optimized_context_sentinel_and_bounded (s : HistoryState)
    (hsum : s.summary.length ≤ 200)
    (hch : ∀ e ∈ s.story_history, (Nat.repr e.chapter).length ≤ 2)
    (huc : ∀ e ∈ s.interaction_history, e.user_choice.length ≤ 1) :
    (get_optimized_context s = storyStartSentinel ↔
      s.story_history = [] ∧ s.interaction_history = [] ∧ s.summary = []) ∧
      (get_optimized_context s).length ≤ 1100 := by
  constructor
  · constructor
    · intro h
      rw [← contextParts_eq_nil_iff]
      by_contra hne
      unfold get_optimized_context at h
      rw [if_pos hne] at h
      rcases hp : contextParts s with _ | ⟨p, ps⟩
      · exact hne hp
      · have h6 : 6 ≤ p.length := contextParts_head_len s p (by rw [hp]; simp)
        have hge : p.length ≤ (pyJoin ctxSep (contextParts s)).length := by
          rw [hp]; exact pyJoin_ge_head _ p ps
        rw [h] at hge
        have h4 : (storyStartSentinel : PyStr).length = 4 := rfl
        omega
    · intro hempty
      unfold get_optimized_context
      rw [if_neg (by rw [ne_eq, not_not, contextParts_eq_nil_iff]; exact hempty)]
  · unfold get_optimized_context
    split
    case isFalse => exact le_of_eq_of_le (by rfl) (by norm_num [storyStartSentinel])
    case isTrue hne =>
      calc (pyJoin ctxSep (contextParts s)).length
          ≤ (342 + ctxSep.length) * (contextParts s).length :=
            pyJoin_length_of_bound _ _ 342 (contextParts_each_le s hsum hch huc)
        _ ≤ (342 + 3) * 3 :=
            Nat.mul_le_mul (le_refl _) (contextParts_length_le s)
        _ ≤ 1100 := by norm_num

/-- Witness for C4 at a one-story-entry state: the hypotheses hold, the
context is not the sentinel (the ledger is non-empty), and the bound holds. -/
theorem get_optimized_context_sentinel_and_bounded_witness :
    ((([] : PyStr).length ≤ 200 ∧
        (∀ e ∈ [StoryEntry.mk 1 "Once".data], (Nat.repr e.chapter).length ≤ 2) ∧
        (∀ e ∈ ([] : List InteractionEntry), e.user_choice.length ≤ 1)) ∧
      ((get_optimized_context ⟨5, 200, [StoryEntry.mk 1 "Once".data], [], []⟩ =
            storyStartSentinel ↔
          [StoryEntry.mk 1 "Once".data] = ([] : List StoryEntry) ∧
            ([] : List InteractionEntry) = [] ∧ ([] : PyStr) = []) ∧
        (get_optimized_context ⟨5, 200, [StoryEntry.mk 1 "Once".data], [], []⟩).length ≤ 1100)) :=
  ⟨⟨by decide, by decide, by decide⟩,
    get_optimized_context_sentinel_and_bounded ⟨5, 200, [StoryEntry.mk 1 "Once".data], [], []⟩
      (by decide) (by decide) (by decide)⟩

/-! ## Optimized story engine (`SoulExplorerBotOptimized`, soul_explorer_bot_optimized.py 155-503) -/

/-- Outcome of one generation request as seen by the story engine: either
the text the retry wrapper returned, or the exception that escaped after
the retry budget was exhausted. -/
inductive GenOutcome where
  | ok (text : PyStr)
  | fail

/-- Session state of `SoulExplorerBotOptimized` (the fields mutated by the
session flow; the prompt pools and API handle carry no session state). -/
structure BotState where
  total_chapters : ℕ
  current_chapter : ℕ
  user_choices : List PyStr
  user_choice_texts : List PyStr
  is_custom_mode : Bool
  custom_scene : PyStr
  custom_character : PyStr
  current_location : PyStr
  current_time : PyStr
  current_context : PyStr
  story_theme : PyStr
  history : HistoryState
deriving DecidableEq

/-- `SoulExplorerBotOptimized.__init__`: `total_chapters = 5`,
`current_chapter = 0`, empty histories, manager configured with
`max_history_length = 5` and `max_summary_length = 200`. -/
def initBotState : BotState :=
  ⟨5, 0, [], [], false, [], [], [], [], [], [], initHistoryState 5 200⟩

/-- Pool of `_generate_default_story` (random.choice modelled by the
injected index `pick`, reduced modulo the pool size). -/
def default_stories : List PyStr :=
  ["You stand at a mysterious crossroads, surrounded by a faint mist. There are three different paths leading to unknown horizons. Your heart is filled with curiosity and anticipation, wanting to explore this mysterious world.\n\nA. Choose the left path, where there are warm lights.\nB. Choose the middle path, where there are ancient stone steps.\nC. Choose the right path, where there are clear bird chirps.\nD. Stay in place and observe the surroundings.".data,
    "You find yourself in an ancient library, with towering bookcases and a scent of books. A mysterious book falls from the shelf, emitting a crisp sound. You feel a mysterious attraction.\n\nA. Immediately pick up that book, open it and read.\nB. First observe the surroundings, ensure safety.\nC. Ask the librarian about the information about this book.\nD. Put the book back to its original place, continue searching for other books.".data]

/-- Pool of `_generate_default_chapter`. -/
def default_chapters : List PyStr :=
  ["You continue forward and find a small wooden house. The door of the wooden house is slightly ajar, and warm light shines from inside. You feel a sense of warmth at home.\n\nA. Enter the wooden house, explore the interior.\nB. Wait outside the door, observe the situation.\nC. Go around, continue forward.\nD. Return to the original path, look for other directions.".data,
    "You encounter a mysterious old man, who is pruning flowers in the garden. The old man looked at you, his eyes gleaming with wisdom.\n\nA. Actively approach, ask for the way.\nB. Keep a distance, observe the old man".data ++ [squote] ++
      "s behavior.\nC. Wait for the old man to speak first.\nD. Leave silently, do not disturb the old man.".data]

/-- `_generate_default_ending` (a single fixed string). -/
def default_ending : PyStr :=
  "After this soul exploration journey, you have discovered your true thoughts deep inside. Each choice reflects your personality traits and values.\n\n---\n\n**Soulmate Type Analysis**\nBased on your choices, you have shown unique personality traits. You tend to think carefully before acting and value your inner feelings and intuition. Your soulmate should be someone who understands your inner world, can communicate deeply with you, and grow together with you.".data

/-- `random.choice` over a fixed pool, with the random draw injected. -/
def pickFrom (pool : List PyStr) (pick : ℕ) : PyStr :=
  pool.getD (pick % pool.length) []

/-- Python `repr` of a list of strings, as interpolated by the f-string in
`_generate_ending` (all recorded choices are plain letters, for which
Python repr uses single quotes). -/
def pyReprStrList (l : List PyStr) : PyStr :=
  "[".data ++ pyJoin ", ".data (l.map fun c => squote :: c ++ [squote]) ++ "]".data

/-- The summary written after a successful ending generation:
`f"User choice history: {self.user_choices}, final analysis complete"`. -/
def endingSummary (user_choices : List PyStr) : PyStr :=
  "User choice history: ".data ++ pyReprStrList user_choices ++
    ", final analysis complete".data

/-- `SoulExplorerBotOptimized._generate_random_story`: on success, record
the response at the current chapter and return it; when the generation call
still fails after retries, return a random default story (recording
nothing). -/
def generate_random_story (gen : GenOutcome) (pick : ℕ) (s : BotState) : PyStr × BotState :=
  match gen with
  | .ok r => (r, { s with history := add_story_entry s.history s.current_chapter r })
  | .fail => (pickFrom default_stories pick, s)

/-- `SoulExplorerBotOptimized._generate_next_chapter`: same shape as
`_generate_random_story` but falling back to a random default chapter. -/
def generate_next_chapter (gen : GenOutcome) (pick : ℕ) (s : BotState) : PyStr × BotState :=
  match gen with
  | .ok r => (r, { s with history := add_story_entry s.history s.current_chapter r })
  | .fail => (pickFrom default_chapters pick, s)

/-- `SoulExplorerBotOptimized._generate_ending`: on success, update the
summary and return the response; on exhausted retries return the single
fixed default ending (the summary is not touched). -/
def generate_ending (gen : GenOutcome) (s : BotState) : PyStr × BotState :=
  match gen with
  | .ok r =>
    (r, { s with history := update_summary s.history (endingSummary s.user_choices) })
  | .fail => (default_ending, s)

/-- The reply of `start_exploration` to the custom-mode trigger. -/
def customModeInstruction : PyStr :=
  "请告诉我你想要的场景和角色设定。例如：".data ++ [squote] ++
    "场景：一个神秘的图书馆，角色：一位寻找答案的学者".data ++ [squote]

/-- The reply of `start_exploration` to any other input. -/
def startReprompt : PyStr :=
  "请发送 ".data ++ [squote] ++ "start".data ++ [squote] ++
    " 开始随机探索，或发送 ".data ++ [squote] ++ "自定义".data ++ [squote] ++
    " 进行自定义设置。".data

/-- `SoulExplorerBotOptimized.start_exploration`.  The three random lexical
seeds feed only the prompt text, which is part of the injected generation
outcome; they touch no session state. -/
def start_exploration (gen : GenOutcome) (pick : ℕ) (user_input : PyStr) (s : BotState) :
    PyStr × BotState :=
  let inp := pyLower (pyStrip user_input)
  if inp = "start".data then
    generate_random_story gen pick { s with is_custom_mode := false }
  else if inp = "自定义".data then
    (customModeInstruction, { s with is_custom_mode := true })
  else
    (startReprompt, s)

/-- `SoulExplorerBotOptimized.process_choice`.  The choice is recorded
unconditionally (no letter validation in this variant); the final-chapter
boundary test is `self.current_chapter < self.total_chapters - 1` over
Python ints.  The outer exception handler of the Python method is
unreachable: both generator helpers catch every exception themselves. -/
def process_choice (gen genEnd : GenOutcome) (pick : ℕ)
    (user_choice choice_text : PyStr) (s : BotState) : PyStr × BotState :=
  let s1 : BotState :=
    { s with
      user_choices := s.user_choices ++ [user_choice]
      user_choice_texts :=
        if choice_text ≠ [] then s.user_choice_texts ++ [choice_text]
        else s.user_choice_texts
      history := add_interaction_entry s.history user_choice choice_text [] }
  if (s1.current_chapter : ℤ) < (s1.total_chapters : ℤ) - 1 then
    let p := generate_next_chapter gen pick s1
    (p.1, { p.2 with current_chapter := p.2.current_chapter + 1 })
  else
    let p := generate_next_chapter gen pick s1
    let s3 := { p.2 with current_chapter := p.2.current_chapter + 1 }
    let q := generate_ending genEnd s3
    (p.1 ++ "\n\n".data ++ q.1, q.2)

/-- `SoulExplorerBotOptimized.reset_session`. -/
def reset_session (s : BotState) : BotState :=
  { s with
    current_chapter := 0
    user_choices := []
    user_choice_texts := []
    is_custom_mode := false
    custom_scene := []
    custom_character := []
    current_location := []
    current_time := []
    current_context := []
    story_theme := []
    history := clear_history s.history }

/-- C10: `reset_session` returns every session field to its initial value,
empties both ledger lists and the summary, and the compressed context
immediately after a reset is the "story has not started" sentinel — for
every session state, reachable or not. -/
theorem reset_session_restores_initial (s : BotState) :
    (reset_session s).user_choices = [] ∧
      (reset_session s).user_choice_texts = [] ∧
      (reset_session s).current_chapter = 0 ∧
      (reset_session s).is_custom_mode = false ∧
      (reset_session s).custom_scene = [] ∧
      (reset_session s).custom_character = [] ∧
      (reset_session s).history.story_history = [] ∧
      (reset_session s).history.interaction_history = [] ∧
      (reset_session s).history.summary = [] ∧
      get_optimized_context (reset_session s).history = storyStartSentinel := by
  refine ⟨rfl, rfl, rfl, rfl, rfl, rfl, rfl, rfl, rfl, ?_⟩
  simp [reset_session, clear_history, get_optimized_context, contextParts, takeLast]

/-- The four accepted choice letters. -/
def validChoices : List PyStr := ["A".data, "B".data, "C".data, "D".data]

/-- A session is past its final chapter (the spec's `ENDED` state) once the
chapter counter has reached `total_chapters`; before that a started session
is `IN_PROGRESS`. -/
def sessionEnded (s : BotState) : Prop := s.total_chapters ≤ s.current_chapter

instance (s : BotState) : Decidable (sessionEnded s) := by
  unfold sessionEnded; infer_instance

/-- C6: with `total_chapters = 5`, starting with `"start"` and submitting 5
valid choices (all generation calls succeeding) crosses `ENDED` exactly
once — the session is not ended after the start and after each of the first
4 choices, and is ended after the 5th; the chapter counter climbs 0,1,…,5;
`choice_history` is exactly the 5 letters in order; and the 5th call
returns the last chapter's continuation and the ending joined by a blank
line. -/
theorem five_choice_run_ends_once (c1 c2 c3 c4 c5 : PyStr)
    (hc : c1 ∈ validChoices ∧ c2 ∈ validChoices ∧ c3 ∈ validChoices ∧
      c4 ∈ validChoices ∧ c5 ∈ validChoices)
    (r0 r1 r2 r3 r4 r5 e : PyStr) :
    (¬ sessionEnded (start_exploration (.ok r0) 0 "start".data initBotState).2) ∧
      (¬ sessionEnded (process_choice (.ok r1) (.ok e) 0 c1 []
        (start_exploration (.ok r0) 0 "start".data initBotState).2).2) ∧
      (¬ sessionEnded (process_choice (.ok r2) (.ok e) 0 c2 []
        (process_choice (.ok r1) (.ok e) 0 c1 []
          (start_exploration (.ok r0) 0 "start".data initBotState).2).2).2) ∧
      (¬ sessionEnded (process_choice (.ok r3) (.ok e) 0 c3 []
        (process_choice (.ok r2) (.ok e) 0 c2 []
          (process_choice (.ok r1) (.ok e) 0 c1 []
            (start_exploration (.ok r0) 0 "start".data initBotState).2).2).2).2) ∧
      (¬ sessionEnded (process_choice (.ok r4) (.ok e) 0 c4 []
        (process_choice (.ok r3) (.ok e) 0 c3 []
          (process_choice (.ok r2) (.ok e) 0 c2 []
            (process_choice (.ok r1) (.ok e) 0 c1 []
              (start_exploration (.ok r0) 0 "start".data initBotState).2).2).2).2).2) ∧
      sessionEnded (process_choice (.ok r5) (.ok e) 0 c5 []
        (process_choice (.ok r4) (.ok e) 0 c4 []
          (process_choice (.ok r3) (.ok e) 0 c3 []
            (process_choice (.ok r2) (.ok e) 0 c2 []
              (process_choice (.ok r1) (.ok e) 0 c1 []
                (start_exploration (.ok r0) 0 "start".data initBotState).2).2).2).2).2).2 ∧
      (process_choice (.ok r5) (.ok e) 0 c5 []
        (process_choice (.ok r4) (.ok e) 0 c4 []
          (process_choice (.ok r3) (.ok e) 0 c3 []
            (process_choice (.ok r2) (.ok e) 0 c2 []
              (process_choice (.ok r1) (.ok e) 0 c1 []
                (start_exploration (.ok r0) 0 "start".data initBotState).2).2).2).2).2).2.current_chapter = 5 ∧
      (process_choice (.ok r5) (.ok e) 0 c5 []
        (process_choice (.ok r4) (.ok e) 0 c4 []
          (process_choice (.ok r3) (.ok e) 0 c3 []
            (process_choice (.ok r2) (.ok e) 0 c2 []
              (process_choice (.ok r1) (.ok e) 0 c1 []
                (start_exploration (.ok r0) 0 "start".data initBotState).2).2).2).2).2).2.user_choices = [c1, c2, c3, c4, c5] ∧
      (process_choice (.ok r5) (.ok e) 0 c5 []
        (process_choice (.ok r4) (.ok e) 0 c4 []
          (process_choice (.ok r3) (.ok e) 0 c3 []
            (process_choice (.ok r2) (.ok e) 0 c2 []
              (process_choice (.ok r1) (.ok e) 0 c1 []
                (start_exploration (.ok r0) 0 "start".data initBotState).2).2).2).2).2).1 = r5 ++ "\n\n".data ++ e := by
  refine ⟨?_, ?_, ?_, ?_, ?_, ?_, ?_, ?_, ?_⟩ <;>
    simp [start_exploration, process_choice, generate_random_story, generate_next_chapter,
      generate_ending, initBotState, sessionEnded, pyLower, pyStrip, isPySpace]

/-- Witness for C6 with choices `A, B, C, D, A` and concrete generated
texts. -/
theorem five_choice_run_ends_once_witness :
    (("A".data ∈ validChoices ∧ "B".data ∈ validChoices ∧ "C".data ∈ validChoices ∧
        "D".data ∈ validChoices ∧ "A".data ∈ validChoices) ∧
      sessionEnded (process_choice (.ok "s5".data) (.ok "end".data) 0 "A".data []
        (process_choice (.ok "s4".data) (.ok "end".data) 0 "D".data []
          (process_choice (.ok "s3".data) (.ok "end".data) 0 "C".data []
            (process_choice (.ok "s2".data) (.ok "end".data) 0 "B".data []
              (process_choice (.ok "s1".data) (.ok "end".data) 0 "A".data []
                (start_exploration (.ok "s0".data) 0 "start".data
                  initBotState).2).2).2).2).2).2 ∧
      (process_choice (.ok "s5".data) (.ok "end".data) 0 "A".data []
        (process_choice (.ok "s4".data) (.ok "end".data) 0 "D".data []
          (process_choice (.ok "s3".data) (.ok "end".data) 0 "C".data []
            (process_choice (.ok "s2".data) (.ok "end".data) 0 "B".data []
              (process_choice (.ok "s1".data) (.ok "end".data) 0 "A".data []
                (start_exploration (.ok "s0".data) 0 "start".data
                  initBotState).2).2).2).2).2).2.user_choices =
        ["A".data, "B".data, "C".data, "D".data, "A".data]) :=
  ⟨⟨by decide, by decide, by decide, by decide, by decide⟩,
    ((five_choice_run_ends_once "A".data "B".data "C".data "D".data "A".data
      ⟨by decide, by decide, by decide, by decide, by decide⟩
      "s0".data "s1".data "s2".data "s3".data "s4".data "s5".data "end".data).2.2.2.2.2).1,
    ((five_choice_run_ends_once "A".data "B".data "C".data "D".data "A".data
      ⟨by decide, by decide, by decide, by decide, by decide⟩
      "s0".data "s1".data "s2".data "s3".data "s4".data "s5".data "end".data).2.2.2.2.2).2.2.1⟩

/-- Counterexample to C7 as stated: at the initial state with choice `A`,
the failing-generation run leaves the story ledger empty while the
successful run records one story entry — the history ledger does NOT
advance "exactly as if the generation call had succeeded". -/
theorem fallback_skips_story_ledger :
    (process_choice .fail .fail 0 "A".data [] initBotState).2.history.story_history.length
        = 0 ∧
      (process_choice (.ok "S".data) (.ok "E".data) 0 "A".data []
        initBotState).2.history.story_history.length = 1 :=
  ⟨rfl, rfl⟩

/-- C7 (amended): when generation still fails after the retry budget, each
generation-triggering operation returns a hard-coded fallback instead of
raising (a random pick from a 2-element pool for story/chapter, the single
fixed string for the ending); chapter index, choice history and interaction
ledger advance exactly as on success, but no story entry is recorded for
the fallback text and the ending fallback leaves the summary untouched. -/
theorem generation_failure_fallback (s : BotState) (choice text : PyStr) (pick pick2 : ℕ)
    (hs : s.history.story_history.length ≤ s.history.max_history_length) :
    (start_exploration .fail pick "start".data s).1 = pickFrom default_stories pick ∧
      (start_exploration .fail pick "start".data s).2 = { s with is_custom_mode := false } ∧
      (process_choice .fail .fail pick2 choice text s).1 =
        (if (s.current_chapter : ℤ) < (s.total_chapters : ℤ) - 1 then
          pickFrom default_chapters pick2
        else pickFrom default_chapters pick2 ++ "\n\n".data ++ default_ending) ∧
      (process_choice .fail .fail pick2 choice text s).2.current_chapter =
        s.current_chapter + 1 ∧
      (process_choice .fail .fail pick2 choice text s).2.user_choices =
        s.user_choices ++ [choice] ∧
      (process_choice .fail .fail pick2 choice text s).2.history.story_history =
        s.history.story_history ∧
      (process_choice .fail .fail pick2 choice text s).2.history.summary =
        s.history.summary ∧
      (process_choice .fail .fail pick2 choice text s).2.history.interaction_history =
        trimList s.history.max_history_length
          (s.history.interaction_history ++ [⟨choice, text, []⟩]) := by
  have hstory : trimList s.history.max_history_length s.history.story_history =
      s.history.story_history := trimList_noop _ _ hs
  refine ⟨rfl, rfl, ?_, ?_, ?_, ?_, ?_, ?_⟩ <;>
    · simp only [process_choice, generate_next_chapter, generate_ending,
        add_interaction_entry, trim_history]
      split_ifs <;> simp [hstory, *]

/-- Witness for C7 at the initial state with choice `A`. -/
theorem generation_failure_fallback_witness :
    (initBotState.history.story_history.length ≤
        initBotState.history.max_history_length) ∧
      ((start_exploration .fail 0 "start".data initBotState).1 =
          pickFrom default_stories 0 ∧
        (start_exploration .fail 0 "start".data initBotState).2 =
          { initBotState with is_custom_mode := false } ∧
        (process_choice .fail .fail 0 "A".data [] initBotState).1 =
          (if (initBotState.current_chapter : ℤ) < (initBotState.total_chapters : ℤ) - 1 then
            pickFrom default_chapters 0
          else pickFrom default_chapters 0 ++ "\n\n".data ++ default_ending) ∧
        (process_choice .fail .fail 0 "A".data [] initBotState).2.current_chapter =
          initBotState.current_chapter + 1 ∧
        (process_choice .fail .fail 0 "A".data [] initBotState).2.user_choices =
          initBotState.user_choices ++ ["A".data] ∧
        (process_choice .fail .fail 0 "A".data [] initBotState).2.history.story_history =
          initBotState.history.story_history ∧
        (process_choice .fail .fail 0 "A".data [] initBotState).2.history.summary =
          initBotState.history.summary ∧
        (process_choice .fail .fail 0 "A".data [] initBotState).2.history.interaction_history =
          trimList initBotState.history.max_history_length
            (initBotState.history.interaction_history ++ [⟨"A".data, [], []⟩])) :=
  ⟨by decide,
    generation_failure_fallback initBotState "A".data [] 0 0 (by decide)⟩

/-! ## Baseline story engine (`SoulExplorerBot`, soul_explorer_bot.py 8-549) -/

/-- Session state of the baseline `SoulExplorerBot`. -/
structure BaselineState where
  total_chapters : ℕ
  current_chapter : ℕ
  user_choices : List PyStr
  story_history : List PyStr
  is_custom_mode : Bool
  custom_scene : PyStr
  custom_character : PyStr
  current_location : PyStr
  current_time : PyStr
  current_context : PyStr
  story_theme : PyStr
deriving DecidableEq

/-- `SoulExplorerBot.__init__`: `total_chapters = 10`, `current_chapter = 1`
(1-based in this variant), everything else empty. -/
def initBaselineState : BaselineState :=
  ⟨10, 1, [], [], false, [], [], [], [], [], []⟩

/-- The fixed guidance string returned for an invalid choice letter:
`"请选择A、B、C或D来决定你的下一步行动。"`. -/
def choiceGuidance : PyStr := "请选择A、B、C或D来决定你的下一步行动。".data

/-- `SoulExplorerBot.process_choice`: strip and uppercase the choice;
reject anything outside `{A,B,C,D}` with the fixed guidance string and no
state change; otherwise record it and either generate the ending (chapter
counter at the bound) or advance the chapter and generate the next one.
The two generation subroutines (which embed their own retry/fallback logic
and story-state keyword extraction) are taken as oracle parameters: the
claim settled here is uniform in them. -/
def baselineProcessChoice
    (genNext : PyStr → BaselineState → PyStr × BaselineState)
    (genEnd : BaselineState → PyStr × BaselineState)
    (user_choice : PyStr) (s : BaselineState) : PyStr × BaselineState :=
  let c := pyUpper (pyStrip user_choice)
  if c ∈ validChoices then
    let s1 := { s with user_choices := s.user_choices ++ [c] }
    if s1.total_chapters ≤ s1.current_chapter then genEnd s1
    else genNext c { s1 with current_chapter := s1.current_chapter + 1 }
  else
    (choiceGuidance, s)

/-- Counterexample to C5 as stated: the optimized variant's
`process_choice` performs no letter validation — the invalid choice `X`
is appended to `choice_history` (so the session state is mutated and no
guidance string is returned). -/
theorem process_choice_no_validation_optimized :
    (process_choice (.ok "S".data) (.ok "E".data) 0 "X".data []
        initBotState).2.user_choices = ["X".data] ∧
      initBotState.user_choices = [] :=
  ⟨rfl, rfl⟩

/-- C5 (amended): the baseline `SoulExplorerBot.process_choice` returns the
fixed guidance string and leaves the state unchanged for every choice whose
stripped uppercase form is not in `{A,B,C,D}`; the optimized variant
instead records every choice string unconditionally. -/
theorem invalid_choice_rejected_baseline
    (genNext : PyStr → BaselineState → PyStr × BaselineState)
    (genEnd : BaselineState → PyStr × BaselineState)
    (choice : PyStr) (s : BaselineState)
    (h : pyUpper (pyStrip choice) ∉ validChoices)
    (gen genEnd2 : GenOutcome) (pick : ℕ) (text : PyStr) (s2 : BotState) :
    baselineProcessChoice genNext genEnd choice s = (choiceGuidance, s) ∧
      (process_choice gen genEnd2 pick choice text s2).2.user_choices =
        s2.user_choices ++ [choice] := by
  constructor
  · unfold baselineProcessChoice
    rw [if_neg h]
  · simp only [process_choice, generate_next_chapter, generate_ending,
      add_interaction_entry, trim_history]
    split_ifs <;> cases gen <;> cases genEnd2 <;> simp [update_summary]

/-- Witness for C5 with the invalid choice `X`, trivial generation oracles
for the baseline engine and a successful generation for the optimized
engine. -/
theorem invalid_choice_rejected_baseline_witness :
    (pyUpper (pyStrip "X".data) ∉ validChoices) ∧
      (baselineProcessChoice (fun _ s => ([], s)) (fun s => ([], s)) "X".data
          initBaselineState = (choiceGuidance, initBaselineState) ∧
        (process_choice (.ok "S".data) (.ok "E".data) 0 "X".data []
            initBotState).2.user_choices = initBotState.user_choices ++ ["X".data]) :=
  ⟨by decide,
    invalid_choice_rejected_baseline (fun _ s => ([], s)) (fun s => ([], s)) "X".data
      initBaselineState (by decide) (.ok "S".data) (.ok "E".data) 0 [] initBotState⟩

/-! ## Response parser (`_parse_story_response`, main_soul_explorer_optimized.py 251-269,
identical in main_soul_explorer_optimized_simple.py 338-356) -/

/-- `line.startswith(('A.', 'B.', 'C.', 'D.'))`. -/
def isOptionLine (l : PyStr) : Bool :=
  ["A.".data, "B.".data, "C.".data, "D.".data].any fun p => p.isPrefixOf l

/-- A stripped line that the parser keeps as story text: not an option
line, non-empty, and not starting with the horizontal-rule marker. -/
def storyLineKeep (l : PyStr) : Bool :=
  !isOptionLine l && !l.isEmpty && !(("---".data : PyStr).isPrefixOf l)

/-- The option contributed by a stripped line, if any: option lines yield
`line[2:].strip()` when that suffix is non-empty. -/
def optionOf (l : PyStr) : Option PyStr :=
  if isOptionLine l then
    (if (pyStrip (l.drop 2)).isEmpty then none else some (pyStrip (l.drop 2)))
  else none

/-- The loop body of `_parse_story_response`, accumulating
`(story_lines, options)`. -/
def parseStep (acc : List PyStr × List PyStr) (line : PyStr) : List PyStr × List PyStr :=
  let l := pyStrip line
  if isOptionLine l then
    (if (pyStrip (l.drop 2)).isEmpty then acc else (acc.1, acc.2 ++ [pyStrip (l.drop 2)]))
  else if l.isEmpty then acc
  else if ("---".data : PyStr).isPrefixOf l then acc
  else (acc.1 ++ [l], acc.2)

/-- `_parse_story_response`: split the stripped response into lines, fold
the classifier over them, and newline-join the story lines.  A total
function — it cannot raise on any input. -/
def parse_story_response (response : PyStr) : PyStr × List PyStr :=
  let lines := (pyStrip response).splitOn '\n'
  let acc := lines.foldl parseStep ([], [])
  (pyJoin "\n".data acc.1, acc.2)

lemma foldl_parseStep (lines : List PyStr) :
    ∀ (S O : List PyStr), lines.foldl parseStep (S, O) =
      (S ++ (lines.map pyStrip).filter storyLineKeep,
        O ++ (lines.map pyStrip).filterMap optionOf) := by
  induction lines with
  | nil => intro S O; simp
  | cons line rest ih =>
    intro S O
    simp only [List.foldl_cons, List.map_cons, List.filter_cons, List.filterMap_cons]
    by_cases h1 : isOptionLine (pyStrip line)
    · by_cases h2 : (pyStrip ((pyStrip line).drop 2)).isEmpty
      · rw [show parseStep (S, O) line = (S, O) from by simp [parseStep, h1, h2]]
        rw [ih S O]
        simp [storyLineKeep, optionOf, h1, h2]
      · rw [show parseStep (S, O) line =
            (S, O ++ [pyStrip ((pyStrip line).drop 2)]) from by simp [parseStep, h1, h2]]
        rw [ih S (O ++ [pyStrip ((pyStrip line).drop 2)])]
        simp [storyLineKeep, optionOf, h1, h2]
    · by_cases h2 : (pyStrip line).isEmpty
      · rw [show parseStep (S, O) line = (S, O) from by simp [parseStep, h1, h2]]
        rw [ih S O]
        simp [storyLineKeep, optionOf, h1, h2]
      · by_cases h3 : ("---".data : PyStr).isPrefixOf (pyStrip line)
        · rw [show parseStep (S, O) line = (S, O) from by simp [parseStep, h1, h2, h3]]
          rw [ih S O]
          simp [storyLineKeep, optionOf, h1, h2, h3]
        · rw [show parseStep (S, O) line = (S ++ [pyStrip line], O) from by
            simp [parseStep, h1, h2, h3]]
          rw [ih (S ++ [pyStrip line]) O]
          simp [storyLineKeep, optionOf, h1, h2, h3]

lemma filterMap_optionOf_filter (ls : List PyStr) :
    ls.filterMap optionOf = (ls.filter fun l => isOptionLine l).filterMap optionOf := by
  induction ls with
  | nil => rfl
  | cons l ls ih =>
    by_cases h : isOptionLine l
    · simp [List.filter_cons, List.filterMap_cons, h, ih]
    · simp [List.filter_cons, List.filterMap_cons, optionOf, h, ih]

/-- Both components of the parser's result, as filter/filterMap of the
stripped lines (shared helper for the parser claims). -/
lemma parse_story_response_parts (response : PyStr) :
    (parse_story_response response).1 =
      pyJoin "\n".data
        ((((pyStrip response).splitOn '\n').map pyStrip).filter storyLineKeep) ∧
      (parse_story_response response).2 =
        (((pyStrip response).splitOn '\n').map pyStrip).filterMap optionOf := by
  have h := foldl_parseStep ((pyStrip response).splitOn '\n') [] []
  constructor
  · simp only [parse_story_response]
    rw [h]
    simp
  · simp only [parse_story_response]
    rw [h]
    simp

/-- C9 (amended): the parser is a total function (never raises); its
`options` are exactly one entry per option-prefixed stripped line whose
suffix is non-empty after trimming — so an input with five option lines
yields five options, not at most four — and its `story_text` is the
newline-join of the stripped, non-empty, non-`---`, non-option lines — not
the full trimmed input, whose blank lines and rule markers are dropped. -/
theorem parse_story_response_characterization (response : PyStr) :
    (parse_story_response response).1 =
      pyJoin "\n".data
        ((((pyStrip response).splitOn '\n').map pyStrip).filter storyLineKeep) ∧
      (parse_story_response response).2 =
        (((pyStrip response).splitOn '\n').map pyStrip).filterMap optionOf ∧
      (parse_story_response response).2.length ≤
        ((((pyStrip response).splitOn '\n').map pyStrip).filter
          fun l => isOptionLine l).length := by
  obtain ⟨h1, h2⟩ := parse_story_response_parts response
  refine ⟨h1, h2, ?_⟩
  rw [h2, filterMap_optionOf_filter]
  exact List.length_filterMap_le _ _

/-- Counterexample to C9 as stated: five `A.`-prefixed lines produce five
options (the parser never caps at 4), and on an input with no option lines
the story text is not the full trimmed input (the blank line is dropped). -/
theorem parse_story_response_c9_counterexample :
    (parse_story_response "A. 1\nA. 2\nA. 3\nA. 4\nA. 5".data).2.length = 5 ∧
      (parse_story_response "a\n\nb".data).1 = "a\nb".data ∧
      pyStrip "a\n\nb".data = "a\n\nb".data ∧
      (parse_story_response "a\n\nb".data).1 ≠ pyStrip "a\n\nb".data := by
  refine ⟨?_, ?_, ?_, ?_⟩ <;> decide

/-- Two distinct prefixes of equal length cannot both be prefixes of the
same list. -/
lemma isPrefixOf_exclusive {p q t : PyStr} (hlen : p.length = q.length) (hne : p ≠ q)
    (h : p.isPrefixOf t = true) : q.isPrefixOf t = false := by
  rw [List.isPrefixOf_iff_prefix] at h
  rw [← Bool.not_eq_true, List.isPrefixOf_iff_prefix]
  intro hq
  exact hne ((List.prefix_of_prefix_length_le h hq (by omega)).eq_of_length hlen)

lemma optionIndicator (l : PyStr) :
    (if isOptionLine l then 1 else 0) =
      (if ("A.".data : PyStr).isPrefixOf l then 1 else 0) +
        (if ("B.".data : PyStr).isPrefixOf l then 1 else 0) +
        (if ("C.".data : PyStr).isPrefixOf l then 1 else 0) +
        (if ("D.".data : PyStr).isPrefixOf l then 1 else 0) := by
  by_cases hA : ("A.".data : PyStr).isPrefixOf l
  · have hB := isPrefixOf_exclusive (p := "A.".data) (q := "B.".data) rfl (by decide) hA
    have hC := isPrefixOf_exclusive (p := "A.".data) (q := "C.".data) rfl (by decide) hA
    have hD := isPrefixOf_exclusive (p := "A.".data) (q := "D.".data) rfl (by decide) hA
    simp [isOptionLine, hA, hB, hC, hD]
  · by_cases hB : ("B.".data : PyStr).isPrefixOf l
    · have hC := isPrefixOf_exclusive (p := "B.".data) (q := "C.".data) rfl (by decide) hB
      have hD := isPrefixOf_exclusive (p := "B.".data) (q := "D.".data) rfl (by decide) hB
      simp [isOptionLine, hA, hB, hC, hD]
    · by_cases hC : ("C.".data : PyStr).isPrefixOf l
      · have hD := isPrefixOf_exclusive (p := "C.".data) (q := "D.".data) rfl (by decide) hC
        simp [isOptionLine, hA, hB, hC, hD]
      · by_cases hD : ("D.".data : PyStr).isPrefixOf l
        · simp [isOptionLine, hA, hB, hC, hD]
        · simp [isOptionLine, hA, hB, hC, hD]

lemma length_filter_isOptionLine (ls : List PyStr) :
    (ls.filter fun l => isOptionLine l).length =
      ls.countP (fun l => ("A.".data : PyStr).isPrefixOf l) +
        ls.countP (fun l => ("B.".data : PyStr).isPrefixOf l) +
        ls.countP (fun l => ("C.".data : PyStr).isPrefixOf l) +
        ls.countP (fun l => ("D.".data : PyStr).isPrefixOf l) := by
  induction ls with
  | nil => simp
  | cons l ls ih =>
    have hfl : (List.filter (fun l => isOptionLine l) (l :: ls)).length =
        (List.filter (fun l => isOptionLine l) ls).length +
          (if isOptionLine l then 1 else 0) := by
      simp only [List.filter_cons]
      split <;> simp
    rw [hfl, ih, optionIndicator l]
    simp only [List.countP_cons]
    omega

lemma filterMap_optionOf_of_nonempty (ls : List PyStr)
    (h : ∀ l ∈ ls, isOptionLine l = true → ¬(pyStrip (l.drop 2)).isEmpty) :
    ls.filterMap optionOf =
      (ls.filter fun l => isOptionLine l).map fun l => pyStrip (l.drop 2) := by
  induction ls with
  | nil => simp
  | cons l ls ih =>
    have ih' := ih fun q hq hq2 => h q (by simp [hq]) hq2
    by_cases hl : isOptionLine l
    · have hne := h l (by simp) hl
      simp [List.filterMap_cons, List.filter_cons, optionOf, hl, hne, ih']
    · simp [List.filterMap_cons, List.filter_cons, optionOf, hl, ih']

/-- C8 (amended): when the stripped lines of the input contain exactly one
line per option prefix and each such line has a non-empty trimmed suffix,
the parser returns exactly 4 options — the suffixes of the option lines in
their original order — and no option line survives into the story lines
that form `story_text`.  (Without the non-empty-suffix condition a bare
`A.` line is dropped and only 3 options come back.) -/
theorem parse_story_response_four_options (response : PyStr)
    (hA : (((pyStrip response).splitOn '\n').map pyStrip).countP
      (fun l => ("A.".data : PyStr).isPrefixOf l) = 1)
    (hB : (((pyStrip response).splitOn '\n').map pyStrip).countP
      (fun l => ("B.".data : PyStr).isPrefixOf l) = 1)
    (hC : (((pyStrip response).splitOn '\n').map pyStrip).countP
      (fun l => ("C.".data : PyStr).isPrefixOf l) = 1)
    (hD : (((pyStrip response).splitOn '\n').map pyStrip).countP
      (fun l => ("D.".data : PyStr).isPrefixOf l) = 1)
    (hne : ∀ l ∈ ((pyStrip response).splitOn '\n').map pyStrip,
      isOptionLine l = true → ¬(pyStrip (l.drop 2)).isEmpty) :
    (parse_story_response response).2 =
      ((((pyStrip response).splitOn '\n').map pyStrip).filter
        fun l => isOptionLine l).map (fun l => pyStrip (l.drop 2)) ∧
      (parse_story_response response).2.length = 4 ∧
      (parse_story_response response).1 =
        pyJoin "\n".data
          ((((pyStrip response).splitOn '\n').map pyStrip).filter storyLineKeep) ∧
      ∀ l, isOptionLine l = true →
        l ∉ (((pyStrip response).splitOn '\n').map pyStrip).filter storyLineKeep := by
  obtain ⟨hstory, hopts⟩ := parse_story_response_parts response
  have hmap : (parse_story_response response).2 =
      ((((pyStrip response).splitOn '\n').map pyStrip).filter
        fun l => isOptionLine l).map (fun l => pyStrip (l.drop 2)) := by
    rw [hopts, filterMap_optionOf_of_nonempty _ hne]
  refine ⟨hmap, ?_, hstory, ?_⟩
  · rw [hmap, List.length_map, length_filter_isOptionLine, hA, hB, hC, hD]
  · intro l hl hmem
    rw [List.mem_filter] at hmem
    have := hmem.2
    simp [storyLineKeep, hl] at this

/-- Witness for C8 on a concrete four-option response. -/
theorem parse_story_response_four_options_witness :
    ((((pyStrip "Once upon a time.\nA. go\nB. stay\nC. ask\nD. leave".data).splitOn
          '\n').map pyStrip).countP (fun l => ("A.".data : PyStr).isPrefixOf l) = 1 ∧
      (((pyStrip "Once upon a time.\nA. go\nB. stay\nC. ask\nD. leave".data).splitOn
          '\n').map pyStrip).countP (fun l => ("B.".data : PyStr).isPrefixOf l) = 1 ∧
      (((pyStrip "Once upon a time.\nA. go\nB. stay\nC. ask\nD. leave".data).splitOn
          '\n').map pyStrip).countP (fun l => ("C.".data : PyStr).isPrefixOf l) = 1 ∧
      (((pyStrip "Once upon a time.\nA. go\nB. stay\nC. ask\nD. leave".data).splitOn
          '\n').map pyStrip).countP (fun l => ("D.".data : PyStr).isPrefixOf l) = 1) ∧
      (parse_story_response
        "Once upon a time.\nA. go\nB. stay\nC. ask\nD. leave".data).2.length = 4 :=
  ⟨⟨by decide, by decide, by decide, by decide⟩,
    (parse_story_response_four_options
      "Once upon a time.\nA. go\nB. stay\nC. ask\nD. leave".data
      (by decide) (by decide) (by decide) (by decide)
      (by decide)).2.1⟩

/-- Counterexample to C8 as stated: an input with exactly one line per
option prefix in which the `A.` line has an empty suffix yields only 3
options, not 4. -/
theorem parse_story_response_c8_counterexample :
    (parse_story_response "story line\nA.\nB. b\nC. c\nD. d".data).2 =
      ["b".data, "c".data, "d".data] ∧
      (parse_story_response "story line\nA.\nB. b\nC. c\nD. d".data).2.length ≠ 4 := by
  refine ⟨?_, ?_⟩ <;> decide
